import Mathlib

/-!
Verification of the Safai-Saathi detection/streaming service (src/app.py)
against its specification.

The Python module is embedded shallowly: dictionaries become structures with
optional fields, the process-wide mutable globals (`detection_logs`,
`gps_location`) become an explicit `AppState` threaded through the handlers,
and every external HTTP call (IP discovery, geolocation, dashboard upload)
becomes an oracle parameter describing the outcome of that one request
(exception raised, or an HTTP status together with the parsed body, `none`
standing for a body whose JSON parsing raises).  Diagnostic `print`
statements are not modelled except where their evaluation can raise and
thereby change the handler's outcome (the unguarded `±{accuracy:.0f}`
format in `save_gps_location`, line 431 of app.py).  Python float values
carried by the JSON payloads are represented by `ℚ`: the program never does
float arithmetic on them, it only stores, compares for truthiness, and
echoes them.
-/

/-- A normalized location record (the location dictionaries built in
app.py).  `none` in an optional field models a key that is absent (or bound
to Python `None`). -/
structure LocRecord where
  source : String
  ip : Option String := none
  city : Option String := none
  region : Option String := none
  country : Option String := none
  latitude : Option ℚ := none
  longitude : Option ℚ := none
  accuracy : String := "Unknown"
  address : Option String := none
  timestamp : Option String := none
deriving DecidableEq

/-- One entry of the `detection_logs` buffer
(`log_entry` built in `log_detection_with_location`, app.py lines 292-297). -/
structure LogEntry where
  detection_count : Nat
  confidence_scores : List ℚ
  location : LocRecord
  timestamp : String
deriving DecidableEq

/-- The process-wide mutable state of app.py: the global `detection_logs`
list and the global `gps_location` slot (lines 37-38). -/
structure AppState where
  detection_logs : List LogEntry
  gps_location : Option LocRecord
deriving DecidableEq

/-- The state at process start: empty buffer, no GPS fix. -/
def initialState : AppState := { detection_logs := [], gps_location := none }

/-- Outcome of one external HTTP request made with `requests`:
either the call raises (`exn`: network error, timeout, ...), or it returns a
status code and a body; `parsed = none` models a body on which
`response.json()` (or the subsequent field extraction) raises. -/
inductive SvcResult (α : Type) where
  | exn : SvcResult α
  | resp (status : Nat) (parsed : Option α) : SvcResult α
deriving DecidableEq

/-- Parsed body of the ipapi.co geolocation response used by
`get_location_from_ip` (app.py lines 62-74); every field is read with
`.get`, so each is optional. -/
structure GeoPayload where
  city : Option String := none
  region : Option String := none
  country_name : Option String := none
  latitude : Option ℚ := none
  longitude : Option ℚ := none
deriving DecidableEq

/-- Oracles for the three external services consulted by
`get_location_from_ip`: the ipify IP-discovery call (its payload is the
result of `.get('ip')`, which may be Python `None` when the key is absent),
the httpbin fallback (its payload is the already split/stripped origin
string), and the ipapi.co geolocation call, keyed by the IP string
interpolated into the URL. -/
structure IpEnv where
  ipify : SvcResult (Option String)
  httpbin : SvcResult String
  geo : String → SvcResult GeoPayload

/-- The loopback / unspecified addresses recognized at app.py line 44. -/
def loopbackIps : List String := ["127.0.0.1", "localhost", "::1"]

/-- The httpbin fallback block (app.py lines 52-58): on a 200 response whose
body parses, the discovered origin replaces the IP; any exception is
swallowed (`except: pass`) and any non-200 response leaves the IP
unchanged. -/
def httpbinIp (env : IpEnv) (ip : Option String) : Option String :=
  match env.httpbin with
  | .exn => ip
  | .resp status parsed =>
    if status = 200 then
      match parsed with
      | some s => some s
      | none => ip
    else ip

/-- The geolocation phase of `get_location_from_ip` (app.py lines 60-78):
query ipapi.co with the (possibly rediscovered) IP; `ip = none` models the
Python `None` that an absent ipify `ip` key produces, which the URL f-string
renders as the literal string "None".  Any exception, any non-200 status and
any unparsable body yield `none` via the enclosing `try`/`except`. -/
def geoQuery (env : IpEnv) (now : String) (ip : Option String) : Option LocRecord :=
  match env.geo (ip.getD "None") with
  | .exn => none
  | .resp status parsed =>
    if status = 200 then
      match parsed with
      | none => none
      | some d => some
          { source := "IP", ip := ip,
            city := some (d.city.getD "Unknown"),
            region := some (d.region.getD "Unknown"),
            country := some (d.country_name.getD "Unknown"),
            latitude := d.latitude, longitude := d.longitude,
            accuracy := "City-level (~10km)",
            timestamp := some now }
    else none

/-- `get_location_from_ip` (app.py lines 41-78).  Besides the resulting
location record (or `none`), the embedding reports which discovery services
were consulted: the first returned `Bool` is whether the ipify call was
made, the second whether the httpbin fallback was made.  The fallback runs
only from the `except:` handler at line 50, i.e. when the ipify request
itself raises or its 200 body fails to parse; a non-200 ipify response
raises nothing and therefore skips the fallback. -/
def get_location_from_ip (env : IpEnv) (now : String) (ip_address : String) :
    Option LocRecord × Bool × Bool :=
  if ip_address ∈ loopbackIps then
    match env.ipify with
    | .exn => (geoQuery env now (httpbinIp env (some ip_address)), true, true)
    | .resp status parsed =>
      if status = 200 then
        match parsed with
        | some newIp => (geoQuery env now newIp, true, false)
        | none => (geoQuery env now (httpbinIp env (some ip_address)), true, true)
      else (geoQuery env now (some ip_address), true, false)
  else (geoQuery env now (some ip_address), false, false)

/-- The per-call inputs of `log_detection_with_location` (app.py lines
271-311): the detection data, the optional explicit client IP, the IP that
`get_client_ip()` would produce when no explicit IP is given (app.py lines
281-286, including the `'127.0.0.1'` fallback outside request context), the
outcome of `get_location_from_ip` as a function of the queried IP, and the
timestamp the call would record. -/
structure CallArgs where
  detection_count : Nat
  confidence_scores : List ℚ
  client_ip : Option String
  requestIp : String
  resolver : String → Option LocRecord
  now : String

/-- Location selection policy of `log_detection_with_location` (app.py
lines 272-289): with a GPS fix present the fix is copied and retagged
`source = 'GPS'` and the client IP is never consulted; otherwise the
(explicit or request-derived) client IP is resolved. -/
def selectLocation (st : AppState) (a : CallArgs) : Option LocRecord :=
  match st.gps_location with
  | some g => some { g with source := "GPS" }
  | none => a.resolver (a.client_ip.getD a.requestIp)

/-- The buffer update performed by `log_detection_with_location` once a
location is available (app.py lines 292-311): append the entry, then pop
the head when the length exceeds 100. -/
def pushEntry (logs : List LogEntry) (entry : LogEntry) : List LogEntry :=
  if (logs ++ [entry]).length > 100 then (logs ++ [entry]).drop 1
  else logs ++ [entry]

/-- `log_detection_with_location` (app.py lines 271-311).  Returns the
updated state together with whether `upload_detection_to_firebase` was
invoked (the dashboard forwarding attempt, line 307).  When location
selection yields nothing, the call returns without touching the buffer and
without forwarding. -/
def log_detection_with_location (st : AppState) (a : CallArgs) : AppState × Bool :=
  match selectLocation st a with
  | none => (st, false)
  | some loc =>
    let entry : LogEntry :=
      { detection_count := a.detection_count,
        confidence_scores := a.confidence_scores,
        location := loc, timestamp := a.now }
    ({ st with detection_logs := pushEntry st.detection_logs entry }, true)

/-- A sequence of calls to `log_detection_with_location`, folded over the
state. -/
def runCalls (st : AppState) : List CallArgs → AppState
  | [] => st
  | a :: rest => runCalls (log_detection_with_location st a).1 rest

/-- The per-frame counter/logging logic of `generate` (app.py lines
350-363).  The counter is a function attribute that starts unset
(`Option Nat`, `none` = attribute absent); `numDet` is the number of boxes
the model reported for this frame.  When the frame has at least one
detection the counter is incremented (created at 1 when unset) and
`log_detection_with_location` fires exactly when the new counter value is a
multiple of 30.  A frame with no detections skips the whole block.  Returns
the new counter and whether the logging call fired. -/
def frameStep (fc : Option Nat) (numDet : Nat) : Option Nat × Bool :=
  if numDet > 0 then
    let n := match fc with
      | some k => k + 1
      | none => 1
    (some n, n % 30 == 0)
  else (fc, false)

/-- Iterate `frameStep` over a list of per-frame detection counts, recording
for each frame whether the logging call fired. -/
def frameFlags : Option Nat → List Nat → List Bool
  | _, [] => []
  | fc, d :: ds =>
    let s := frameStep fc d
    s.2 :: frameFlags s.1 ds

/-- The flags produced by a run of frames that all carry detections, when
the counter enters the run holding `n`: frame `i` of the run fires iff
`n + i + 1` is a multiple of 30. -/
def countFlags (n : Nat) : Nat → List Bool
  | 0 => []
  | k + 1 => ((n + 1) % 30 == 0) :: countFlags (n + 1) k

/-- The JSON body of a `POST /save_gps_location` request (app.py lines
412-416); each field is read with `.get`, so each is optional. -/
structure GpsReq where
  latitude : Option ℚ := none
  longitude : Option ℚ := none
  accuracy : Option ℚ := none
  timestamp : Option String := none
deriving DecidableEq

/-- Response of the `save_gps_location` handler: `ok address` is the HTTP
200 body `{'status': 'success', 'message': ..., 'address': address}`,
`badRequest` the HTTP 400 `{'error': 'Invalid coordinates'}`, and
`serverError` the HTTP 500 `{'error': 'Failed to save location'}`. -/
inductive SaveResult where
  | ok (address : Option String)
  | badRequest
  | serverError
deriving DecidableEq

/-- `save_gps_location` (app.py lines 408-443).  `resolveAddr` is the
oracle for `get_address_from_coords` (which swallows its own failures and
returns `None`/`none`).  Python truthiness makes the guard
`if latitude and longitude:` reject an absent coordinate and a coordinate
equal to 0 alike.  On the accepted path the global `gps_location` is
assigned first (lines 422-429, with the accuracy display string guarded by
`if accuracy else "Unknown"` — the rendering of Python's `±{a:.0f}` is
approximated by `round`; no claim inspects its digits); the debug print at
line 431 then formats `accuracy` with `:.0f` unconditionally, so when the
field is absent it raises TypeError, the `except` at line 441 answers HTTP
500, and the already-performed assignment stands. -/
def save_gps_location (resolveAddr : ℚ → ℚ → Option String)
    (st : AppState) (req : GpsReq) : AppState × SaveResult :=
  match req.latitude, req.longitude with
  | some lat, some lon =>
    if lat = 0 ∨ lon = 0 then (st, .badRequest)
    else
      let address := resolveAddr lat lon
      let gps : LocRecord :=
        { source := "GPS", latitude := some lat, longitude := some lon,
          accuracy :=
            match req.accuracy with
            | some a => if a = 0 then "Unknown" else "±" ++ toString (round a) ++ " meters"
            | none => "Unknown",
          address := address,
          timestamp := req.timestamp }
      let st' := { st with gps_location := some gps }
      match req.accuracy with
      | none => (st', .serverError)
      | some _ => (st', .ok address)
  | _, _ => (st, .badRequest)

/-- `current_location` (app.py lines 396-405): answer the GPS record when
the slot is set, otherwise resolve the client IP; `none` models the
`{"error": "Location not found"}` body. -/
def current_location (resolver : String → Option LocRecord) (clientIp : String)
    (st : AppState) : Option LocRecord :=
  match st.gps_location with
  | some g => some g
  | none => resolver clientIp

/-- Parsed body of the dashboard's batch-upload response; `details` is read
with `result.get('details', {})` (app.py line 261), so it is optional and
defaults to the empty object.  The details object itself is abstracted as a
list of key/value pairs; only its emptiness matters to the handlers. -/
structure BatchResp where
  details : Option (List (String × String)) := none
deriving DecidableEq

/-- `batch_upload_detections_to_firebase` (app.py lines 204-268).  `dash`
is the oracle for the one POST to the dashboard.  The payload built from
`logs` cannot raise in this typed model (every entry carries a location),
and does not influence the control flow.  On a 200 response whose body
parses, the `details` field (defaulted to the empty object) is returned;
every other outcome — exception, unparsable body, non-200 status — yields
`none`. -/
def batch_upload_detections_to_firebase (dash : SvcResult BatchResp)
    (logs : List LogEntry) : Option (List (String × String)) :=
  match dash with
  | .exn => none
  | .resp status parsed =>
    if status = 200 then
      match parsed with
      | none => none
      | some b => some (b.details.getD [])
    else none

/-- Response of the `sync_to_firebase` handler: `ok details` is the HTTP
200 success body carrying the details object, `badRequest` the HTTP 400
`{'error': 'No detections to sync'}`, `serverError` the HTTP 500 body. -/
inductive SyncResult where
  | ok (details : List (String × String))
  | badRequest
  | serverError
deriving DecidableEq

/-- `sync_to_firebase` (app.py lines 474-494): HTTP 400 on an empty buffer;
otherwise forward the buffer and test the returned value with Python
truthiness (`if result:`), under which both `None` and an *empty* details
object fall to the HTTP 500 branch. -/
def sync_to_firebase (dash : SvcResult BatchResp) (st : AppState) : SyncResult :=
  if st.detection_logs = [] then .badRequest
  else
    match batch_upload_detections_to_firebase dash st.detection_logs with
    | some d => if d = [] then .serverError else .ok d
    | none => .serverError

/-- A concrete reverse-geocoding oracle used by the concrete-input
theorems. -/
def mockResolver : ℚ → ℚ → Option String := fun _ _ => some "1 Mock Street"

/-- A concrete buffer entry used by the concrete-input theorems. -/
def sampleEntry : LogEntry :=
  { detection_count := 2, confidence_scores := [9/10],
    location := { source := "IP" }, timestamp := "t0" }

/-- A concrete `CallArgs` whose resolver finds no location. -/
def unresolvedCall : CallArgs :=
  { detection_count := 1, confidence_scores := [], client_ip := none,
    requestIp := "127.0.0.1", resolver := fun _ => none, now := "t1" }

/-- A concrete GPS fix, as `save_gps_location` would store it. -/
def gpsFix : LocRecord :=
  { source := "GPS", latitude := some 37, longitude := some (-122),
    accuracy := "±15 meters", address := some "1 Mock Street",
    timestamp := some "ts" }

/-- A concrete state whose GPS slot is set. -/
def gpsState : AppState := { detection_logs := [], gps_location := some gpsFix }

lemma pushEntry_shape (logs : List LogEntry) (e : LogEntry)
    (h : logs.length ≤ 100) :
    pushEntry logs e =
      (if logs.length = 100 then logs.drop 1 else logs) ++ [e] := by
  unfold pushEntry
  by_cases h100 : logs.length = 100
  · rcases logs with _ | ⟨x, xs⟩
    · simp at h100
    · have h99 : xs.length = 99 := by simpa using h100
      have hgt : ((x :: xs) ++ [e]).length > 100 := by
        simp only [List.length_append, List.length_cons, List.length_nil]
        omega
      rw [if_pos hgt, if_pos h100]
      simp
  · have hle : ¬ ((logs ++ [e]).length > 100) := by
      simp only [List.length_append, List.length_cons, List.length_nil]
      omega
    rw [if_neg hle, if_neg h100]

/-- Whatever the buffer held, a push always appends the new entry at the
tail. -/
lemma pushEntry_tail (logs : List LogEntry) (e : LogEntry) :
    ∃ l, pushEntry logs e = l ++ [e] := by
  unfold pushEntry
  by_cases hgt : (logs ++ [e]).length > 100
  · rcases logs with _ | ⟨x, xs⟩
    · simp at hgt
    · refine ⟨xs, ?_⟩
      rw [if_pos hgt]
      simp
  · exact ⟨logs, by rw [if_neg hgt]⟩

lemma log_detection_logs_shape (st : AppState) (a : CallArgs)
    (h : st.detection_logs.length ≤ 100) :
    (log_detection_with_location st a).1.detection_logs = st.detection_logs ∨
      ∃ e, (log_detection_with_location st a).1.detection_logs =
        (if st.detection_logs.length = 100 then st.detection_logs.drop 1
         else st.detection_logs) ++ [e] := by
  rcases hsel : selectLocation st a with _ | loc
  · left
    simp [log_detection_with_location, hsel]
  · right
    refine ⟨{ detection_count := a.detection_count,
              confidence_scores := a.confidence_scores,
              location := loc, timestamp := a.now }, ?_⟩
    simp [log_detection_with_location, hsel, pushEntry_shape _ _ h]

lemma log_detection_length_le (st : AppState) (a : CallArgs)
    (h : st.detection_logs.length ≤ 100) :
    (log_detection_with_location st a).1.detection_logs.length ≤ 100 := by
  rcases log_detection_logs_shape st a h with heq | ⟨e, heq⟩
  · rw [heq]; exact h
  · rw [heq]
    by_cases h100 : st.detection_logs.length = 100 <;>
      simp only [h100, if_true, if_false, List.length_append, List.length_drop,
        List.length_singleton, reduceIte] <;> omega

lemma runCalls_length_le (args : List CallArgs) (st : AppState)
    (h : st.detection_logs.length ≤ 100) :
    (runCalls st args).detection_logs.length ≤ 100 := by
  induction args generalizing st with
  | nil => exact h
  | cons a rest ih =>
    simp only [runCalls]
    exact ih _ (log_detection_length_le st a h)

/-- C1: From any state whose buffer holds at most 100 entries (in
particular from process start), every sequence of calls to
`log_detection_with_location` leaves at most 100 entries after each call;
and each single call either leaves the buffer untouched or appends one
entry at the tail, first dropping the oldest (head) entry exactly when the
buffer already held 100 — FIFO eviction preserving the order of the
rest. -/
theorem c1_buffer_bounded_fifo (st : AppState) (args : List CallArgs)
    (a : CallArgs) (h : st.detection_logs.length ≤ 100) :
    (runCalls st args).detection_logs.length ≤ 100 ∧
      ((log_detection_with_location st a).1.detection_logs
          = st.detection_logs ∨
        ∃ e, (log_detection_with_location st a).1.detection_logs =
          (if st.detection_logs.length = 100 then st.detection_logs.drop 1
           else st.detection_logs) ++ [e]) :=
  ⟨runCalls_length_le args st h, log_detection_logs_shape st a h⟩

/-- Witness for C1 at the process-start state and a concrete call. -/
theorem c1_buffer_bounded_fifo_witness :
    initialState.detection_logs.length ≤ 100 ∧
      ((runCalls initialState [unresolvedCall]).detection_logs.length ≤ 100 ∧
        ((log_detection_with_location initialState unresolvedCall).1.detection_logs
            = initialState.detection_logs ∨
          ∃ e, (log_detection_with_location initialState unresolvedCall).1.detection_logs =
            (if initialState.detection_logs.length = 100 then
              initialState.detection_logs.drop 1
             else initialState.detection_logs) ++ [e])) :=
  ⟨by decide,
   c1_buffer_bounded_fifo initialState [unresolvedCall] unresolvedCall (by decide)⟩

lemma frameFlags_pos (ds : List Nat) (n : Nat) (h : ∀ d ∈ ds, 0 < d) :
    frameFlags (some n) ds = countFlags n ds.length := by
  induction ds generalizing n with
  | nil => rfl
  | cons d rest ih =>
    have hd : 0 < d := h d (by simp)
    simp only [frameFlags, frameStep, hd, if_pos, List.length_cons, countFlags]
    exact congrArg _ (ih (n + 1) fun x hx => h x (by simp [hx]))

/-- C2: Starting from an unset frame counter, across 30 successive frames
each containing at least one detection, the logging call fires exactly
once, on the 30th frame; and a frame with zero detections neither
increments the counter nor fires the call. -/
theorem c2_logs_on_30th_frame (ds : List Nat) (hlen : ds.length = 30)
    (hpos : ∀ d ∈ ds, 0 < d) :
    frameFlags none ds = List.replicate 29 false ++ [true] ∧
      ∀ fc, frameStep fc 0 = (fc, false) := by
  constructor
  · rcases ds with _ | ⟨d, rest⟩
    · simp at hlen
    · have hd : 0 < d := hpos d (by simp)
      have hrest : rest.length = 29 := by
        simpa using hlen
      simp only [frameFlags, frameStep, hd, if_pos]
      rw [frameFlags_pos rest 1 fun x hx => hpos x (by simp [hx]), hrest]
      decide
  · intro fc
    simp [frameStep]

/-- Witness for C2 on a concrete run of 30 frames with one detection
each. -/
theorem c2_logs_on_30th_frame_witness :
    (List.replicate 30 1).length = 30 ∧
      (frameFlags none (List.replicate 30 1) =
          List.replicate 29 false ++ [true] ∧
        ∀ fc, frameStep fc 0 = (fc, false)) :=
  ⟨by decide, c2_logs_on_30th_frame (List.replicate 30 1) (by decide) (by decide)⟩

/-- C3: While the GPS slot is set, every call to
`log_detection_with_location` forwards (so an event is produced), the
event appended to the buffer carries the stored GPS fix retagged
`source = 'GPS'`, and the `client_ip` argument — and the IP resolver
itself — have no effect on the result. -/
theorem c3_gps_wins_ignores_ip (st : AppState) (g : LocRecord) (a : CallArgs)
    (hg : st.gps_location = some g) :
    (log_detection_with_location st a).2 = true ∧
      (∃ l, (log_detection_with_location st a).1.detection_logs =
        l ++ [({ detection_count := a.detection_count,
                 confidence_scores := a.confidence_scores,
                 location := { g with source := "GPS" },
                 timestamp := a.now } : LogEntry)]) ∧
      ∀ ip rip res,
        log_detection_with_location st
            { a with client_ip := ip, requestIp := rip, resolver := res } =
          log_detection_with_location st a := by
  have hsel : selectLocation st a = some { g with source := "GPS" } := by
    simp [selectLocation, hg]
  refine ⟨by simp [log_detection_with_location, hsel], ?_, ?_⟩
  · simp only [log_detection_with_location, hsel]
    exact pushEntry_tail st.detection_logs _
  · intro ip rip res
    have hsel' : selectLocation st
        { a with client_ip := ip, requestIp := rip, resolver := res } =
          some { g with source := "GPS" } := by
      simp [selectLocation, hg]
    simp [log_detection_with_location, hsel, hsel']

/-- Witness for C3 at a concrete GPS-holding state. -/
theorem c3_gps_wins_ignores_ip_witness :
    gpsState.gps_location = some gpsFix ∧
      ((log_detection_with_location gpsState unresolvedCall).2 = true ∧
        (∃ l, (log_detection_with_location gpsState unresolvedCall).1.detection_logs =
          l ++ [{ detection_count := unresolvedCall.detection_count,
                  confidence_scores := unresolvedCall.confidence_scores,
                  location := { gpsFix with source := "GPS" },
                  timestamp := unresolvedCall.now }]) ∧
        ∀ ip rip res,
          log_detection_with_location gpsState
              { unresolvedCall with
                  client_ip := ip, requestIp := rip, resolver := res } =
            log_detection_with_location gpsState unresolvedCall) :=
  ⟨rfl, c3_gps_wins_ignores_ip gpsState gpsFix unresolvedCall rfl⟩

/-- Whether one external call failed, in the sense the specification uses:
the request raised, the status was not 200, or the body did not parse. -/
def svcFails {α : Type} : SvcResult α → Bool
  | .exn => true
  | .resp s p => s != 200 || p.isNone

/-- A concrete environment in which the ipify discovery call answers
HTTP 500 (a failure that raises nothing) and the geolocation service is
unreachable. -/
def c5Env : IpEnv :=
  { ipify := .resp 500 none,
    httpbin := .resp 200 (some "203.0.113.9"),
    geo := fun _ => .exn }

lemma geoQuery_none (env : IpEnv) (now : String) (v : Option String)
    (h : ∀ k, svcFails (env.geo k) = true) : geoQuery env now v = none := by
  have hk := h (v.getD "None")
  unfold geoQuery
  rcases hg : env.geo (v.getD "None") with _ | ⟨s, p⟩
  · rfl
  · rw [hg] at hk
    simp only [svcFails, Bool.or_eq_true, bne_iff_ne, ne_eq,
      Option.isNone_iff_eq_none] at hk
    rcases hk with hs | hp
    · simp [hs]
    · simp [hp]

/-- C5 counterexample: the claim says a failed first IP-discovery attempt
falls back to the second service, for every kind of failure; but when the
first service answers a non-200 status (here 500) nothing is raised and the
fallback is skipped. -/
theorem c5_counterexample :
    ¬ ∀ (env : IpEnv) (now ip : String), ip ∈ loopbackIps →
        svcFails env.ipify = true →
        (get_location_from_ip env now ip).2.2 = true := by
  intro hclaim
  have h := hclaim c5Env "t" "127.0.0.1" (by decide) rfl
  exact absurd h (by decide)

/-- C5 (amended): for a loopback/unspecified address the first discovery
service is always consulted and the second is consulted exactly when the
first call raises (network error) or its 200 body fails to parse — a
non-200 discovery response skips the fallback; for a non-loopback address
no discovery call is made; and whenever the geolocation service fails
(raise, non-200, malformed payload) the function returns `none` rather than
propagating an exception. -/
theorem c5_discovery_and_failures (env : IpEnv) (now ip : String) :
    (ip ∈ loopbackIps →
      (get_location_from_ip env now ip).2.1 = true ∧
        ((get_location_from_ip env now ip).2.2 = true ↔
          (env.ipify = .exn ∨ env.ipify = .resp 200 none))) ∧
    (ip ∉ loopbackIps → (get_location_from_ip env now ip).2 = (false, false)) ∧
    ((∀ k, svcFails (env.geo k) = true) →
      (get_location_from_ip env now ip).1 = none) := by
  by_cases hmem : ip ∈ loopbackIps
  · refine ⟨fun _ => ?_, fun hn => absurd hmem hn, fun hfail => ?_⟩
    · rcases hipify : env.ipify with _ | ⟨s, p⟩
      · simp [get_location_from_ip, hmem, hipify]
      · by_cases hs : s = 200
        · subst hs
          rcases p with _ | v
          · simp [get_location_from_ip, hmem, hipify]
          · simp [get_location_from_ip, hmem, hipify]
        · simp [get_location_from_ip, hmem, hipify, hs]
    · rcases hipify : env.ipify with _ | ⟨s, p⟩
      · simpa [get_location_from_ip, hmem, hipify] using
          geoQuery_none env now _ hfail
      · by_cases hs : s = 200
        · subst hs
          rcases p with _ | v
          · simpa [get_location_from_ip, hmem, hipify] using
              geoQuery_none env now _ hfail
          · simpa [get_location_from_ip, hmem, hipify] using
              geoQuery_none env now _ hfail
        · simpa [get_location_from_ip, hmem, hipify, hs] using
            geoQuery_none env now _ hfail
  · refine ⟨fun hmem2 => absurd hmem2 hmem, fun _ => ?_, fun hfail => ?_⟩
    · simp [get_location_from_ip, hmem]
    · simpa [get_location_from_ip, hmem] using geoQuery_none env now _ hfail

/-- Witness for the amended C5 at a loopback address in a concrete
environment whose geolocation service always fails. -/
theorem c5_discovery_and_failures_witness :
    ("127.0.0.1" ∈ loopbackIps) ∧
      (∀ k, svcFails (c5Env.geo k) = true) ∧
      ((get_location_from_ip c5Env "t" "127.0.0.1").2.1 = true ∧
        ((get_location_from_ip c5Env "t" "127.0.0.1").2.2 = true ↔
          (c5Env.ipify = .exn ∨ c5Env.ipify = .resp 200 none))) ∧
      (get_location_from_ip c5Env "t" "127.0.0.1").1 = none :=
  ⟨by decide, fun _ => rfl,
   (c5_discovery_and_failures c5Env "t" "127.0.0.1").1 (by decide),
   (c5_discovery_and_failures c5Env "t" "127.0.0.1").2.2 (fun _ => rfl)⟩

/-- C4: With no GPS fix and an IP that resolves to no location record, the
call leaves the state (in particular the buffer) unchanged and makes no
forwarding attempt. -/
theorem c4_unresolved_silently_dropped (st : AppState) (a : CallArgs)
    (hg : st.gps_location = none)
    (hres : a.resolver (a.client_ip.getD a.requestIp) = none) :
    log_detection_with_location st a = (st, false) := by
  simp [log_detection_with_location, selectLocation, hg, hres]

/-- Witness for C4 at a concrete state and call. -/
theorem c4_unresolved_silently_dropped_witness :
    initialState.gps_location = none ∧
      unresolvedCall.resolver
          (unresolvedCall.client_ip.getD unresolvedCall.requestIp) = none ∧
      log_detection_with_location initialState unresolvedCall =
        (initialState, false) :=
  ⟨rfl, rfl,
   c4_unresolved_silently_dropped initialState unresolvedCall rfl rfl⟩

/-- C6: The spec makes `accuracy` optional and promises a 200 success body
for every request with valid coordinates; but on the valid request
`{latitude: 37, longitude: -122}` with the accuracy field absent, the debug
print at app.py line 431 formats the absent accuracy with `:.0f`, raises,
and the handler answers HTTP 500 — after having already stored the GPS
record.  (Line 426 of the same handler guards the very same format, showing
the crash is a slip, not intent.) -/
theorem c6_valid_coords_without_accuracy_give_500 :
    save_gps_location mockResolver initialState
        { latitude := some 37, longitude := some (-122) } =
      ({ detection_logs := [],
         gps_location := some
           { source := "GPS", latitude := some 37, longitude := some (-122),
             accuracy := "Unknown", address := some "1 Mock Street",
             timestamp := none } },
       .serverError) := by
  decide

/-- C7: Round trip — saving the GPS fix `{latitude: 37, longitude: -122,
accuracy: 15}` under a mocked reverse geocoder succeeds with the mocked
(non-error) address, and `current_location` afterwards answers a GPS-sourced
record with the same coordinates. -/
theorem c7_save_then_current_location_roundtrip :
    (save_gps_location mockResolver initialState
        { latitude := some 37, longitude := some (-122),
          accuracy := some 15 }).2 = .ok (some "1 Mock Street") ∧
      ∃ g, current_location (fun _ => none) "10.0.0.5"
            (save_gps_location mockResolver initialState
              { latitude := some 37, longitude := some (-122),
                accuracy := some 15 }).1 = some g ∧
        g.source = "GPS" ∧ g.latitude = some 37 ∧ g.longitude = some (-122) := by
  exact ⟨by decide, ⟨_, rfl, rfl, rfl, rfl⟩⟩

/-- A concrete state with one buffered detection. -/
def oneEntryState : AppState :=
  { detection_logs := [sampleEntry], gps_location := none }

/-- C8 counterexample: the claim says any HTTP 200 from the dashboard makes
`sync_to_firebase` answer 200; but `if result:` treats the empty details
object (the default when the 200 body has no `details` field) as falsy, so
a 200 response without details is answered with HTTP 500. -/
theorem c8_counterexample :
    ¬ ∀ (dash : SvcResult BatchResp) (st : AppState),
        (st.detection_logs = [] → sync_to_firebase dash st = .badRequest) ∧
        (st.detection_logs ≠ [] → (∃ p, dash = .resp 200 (some p)) →
          ∃ d, sync_to_firebase dash st = .ok d) ∧
        (st.detection_logs ≠ [] →
          batch_upload_detections_to_firebase dash st.detection_logs = none →
          sync_to_firebase dash st = .serverError) := by
  intro hclaim
  obtain ⟨d, hd⟩ :=
    (hclaim (.resp 200 (some {})) oneEntryState).2.1 (by decide) ⟨{}, rfl⟩
  rw [show sync_to_firebase (.resp 200 (some {})) oneEntryState =
        .serverError by decide] at hd
  cases hd

/-- C8 (amended): `sync_to_firebase` answers HTTP 400 on an empty buffer;
with at least one entry it answers HTTP 200 with the details object exactly
when the dashboard answers 200 with a parseable body carrying a non-empty
`details` object, and HTTP 500 both on every forwarding failure and on a
200 response whose `details` is missing or empty. -/
theorem c8_sync_statuses (dash : SvcResult BatchResp) (st : AppState) :
    (st.detection_logs = [] → sync_to_firebase dash st = .badRequest) ∧
    (st.detection_logs ≠ [] →
      (∀ p d, dash = .resp 200 (some p) → p.details = some d → d ≠ [] →
        sync_to_firebase dash st = .ok d) ∧
      (batch_upload_detections_to_firebase dash st.detection_logs = none →
        sync_to_firebase dash st = .serverError) ∧
      (∀ p, dash = .resp 200 (some p) → p.details.getD [] = [] →
        sync_to_firebase dash st = .serverError)) := by
  constructor
  · intro he
    simp [sync_to_firebase, he]
  · intro hne
    refine ⟨?_, ?_, ?_⟩
    · intro p d hdash hdet hdne
      subst hdash
      simp [sync_to_firebase, batch_upload_detections_to_firebase, hne, hdet,
        hdne]
    · intro hnone
      simp [sync_to_firebase, hne, hnone]
    · intro p hdash hdet
      subst hdash
      simp [sync_to_firebase, batch_upload_detections_to_firebase, hne, hdet]

/-- Witness for the amended C8: one buffered entry, dashboard answers 200
with a non-empty details object. -/
theorem c8_sync_statuses_witness :
    (oneEntryState.detection_logs ≠ [] ∧
      (SvcResult.resp 200 (some ({ details := some [("count", "1")] } : BatchResp))
          = SvcResult.resp 200 (some { details := some [("count", "1")] }) ∧
        ({ details := some [("count", "1")] } : BatchResp).details
          = some [("count", "1")] ∧
        ([("count", "1")] : List (String × String)) ≠ [])) ∧
      sync_to_firebase (.resp 200 (some { details := some [("count", "1")] }))
          oneEntryState = .ok [("count", "1")] :=
  ⟨⟨by decide, rfl, rfl, by decide⟩,
   ((c8_sync_statuses (.resp 200 (some { details := some [("count", "1")] }))
        oneEntryState).2 (by decide)).1 _ _ rfl rfl (by decide)⟩

/-- C9: `save_gps_location` rejects a zero coordinate exactly like a
missing one — Python's `if latitude and longitude:` is a truthiness test —
answering HTTP 400 and leaving the GPS slot (and all state) unchanged. -/
theorem c9_zero_coordinate_rejected (resolveAddr : ℚ → ℚ → Option String)
    (st : AppState) (req : GpsReq)
    (h : req.latitude = some 0 ∨ req.longitude = some 0) :
    save_gps_location resolveAddr st req = (st, .badRequest) := by
  rcases h with h | h <;>
    rcases hlat : req.latitude with _ | lat <;>
    rcases hlon : req.longitude with _ | lon <;>
    simp_all [save_gps_location]

/-- Witness for C9 at a zero latitude. -/
theorem c9_zero_coordinate_rejected_witness :
    (({ latitude := some 0, longitude := some 5 } : GpsReq).latitude = some 0 ∨
      ({ latitude := some 0, longitude := some 5 } : GpsReq).longitude = some 0) ∧
      save_gps_location mockResolver initialState
          { latitude := some 0, longitude := some 5 } =
        (initialState, .badRequest) :=
  ⟨Or.inl rfl,
   c9_zero_coordinate_rejected mockResolver initialState
     { latitude := some 0, longitude := some 5 } (Or.inl rfl)⟩

/-- C10: With valid non-zero coordinates but no accuracy field, the handler
first overwrites the process-wide GPS slot with the new record and only
then evaluates the failing format of the absent accuracy, so it answers
HTTP 500 while the GPS state has already changed. -/
theorem c10_gps_slot_mutated_before_500 (resolveAddr : ℚ → ℚ → Option String)
    (st : AppState) (lat lon : ℚ) (ts : Option String)
    (hlat : lat ≠ 0) (hlon : lon ≠ 0) :
    save_gps_location resolveAddr st
        { latitude := some lat, longitude := some lon,
          accuracy := none, timestamp := ts } =
      ({ st with
          gps_location := some
            { source := "GPS", latitude := some lat, longitude := some lon,
              accuracy := "Unknown", address := resolveAddr lat lon,
              timestamp := ts } },
       .serverError) := by
  simp [save_gps_location, hlat, hlon]

/-- Witness for C10 at concrete coordinates. -/
theorem c10_gps_slot_mutated_before_500_witness :
    ((37 : ℚ) ≠ 0 ∧ (-122 : ℚ) ≠ 0) ∧
      save_gps_location mockResolver initialState
          { latitude := some 37, longitude := some (-122),
            accuracy := none, timestamp := some "ts" } =
        ({ initialState with
            gps_location := some
              { source := "GPS", latitude := some 37, longitude := some (-122),
                accuracy := "Unknown", address := mockResolver 37 (-122),
                timestamp := some "ts" } },
         .serverError) :=
  ⟨⟨by decide, by decide⟩,
   c10_gps_slot_mutated_before_500 mockResolver initialState 37 (-122)
     (some "ts") (by decide) (by decide)⟩
